import Mathlib

/-!
Verification of the admin-panel view-model in `src/src/app/page.tsx`
(the version of the component with the live-session monitor; claim line
numbers refer to it).  The Firestore-backed operations are embedded as
pure functions: a read becomes a lookup into an explicit store value, a
write becomes an element of an explicit write list, and a fallible
operation takes a boolean telling whether the external call succeeded.
-/

namespace AdminPanel

/-- Model of the JavaScript `a || b` idiom on an optional string field:
`undefined` and `""` are falsy, every other string is returned as-is. -/
def jsOrStr (a : Option String) (b : String) : String :=
  match a with
  | none => b
  | some s => if s = "" then b else s

/-- Model of the JavaScript `s || b` idiom on a plain string (only `""` is
falsy), used for `(err as Error).message || "..."` defaults. -/
def jsOrS (s : String) (b : String) : String :=
  if s = "" then b else s

/-- Model of the JavaScript `!!x` coercion on a field that is absent or a
boolean: `undefined` is falsy, a present boolean keeps its value. -/
def truthy : Option Bool → Bool
  | none => false
  | some b => b

/-- A document of the `login` collection (page.tsx type `LoginDoc`): every
field is optional in Firestore.  `idField` models an `id` key stored inside
the document data itself, which the email-path backfill write produces by
spreading `byEmailDoc` (which carries `id: byEmailSnap.docs[0].id`). -/
structure LoginDoc where
  name : Option String := none
  email : Option String := none
  isAdmin : Option Bool := none
  postapproval : Option Bool := none
  postdelete : Option Bool := none
  postedit : Option Bool := none
  postvisible : Option Bool := none
  kbsquiz : Option Bool := none
  bhajanquiz : Option Bool := none
  idField : Option String := none
  deriving DecidableEq

/-- The `login` collection: documents keyed by id, listed in document-id
order (the order an unordered Firestore query returns them in). -/
def LoginStore := List (String × LoginDoc)

/-- A `setDoc` write performed by the session gate. -/
inductive WriteOp where
  | setLogin (id : String) (d : LoginDoc)
  deriving DecidableEq

/-- Outcome of one run of `loadIfAdmin` for a resolved identity: the error
slot it sets, the `setDoc` writes that succeeded, and whether the roster
fetch (`getDocs` of the full `login` collection) was reached. -/
structure GateResult where
  error : Option String
  writes : List WriteOp
  rosterFetched : Bool
  deriving DecidableEq

/-- `getDoc(doc(db, "login", uid))` : lookup by document id. -/
def lookupLogin (st : LoginStore) (uid : String) : Option LoginDoc :=
  (List.find? (fun p => p.1 = uid) st).map (fun p => p.2)

/-- The truthiness test `myData.isAdmin` / `byEmailDoc.isAdmin` on the
optional `isAdmin` field. -/
def adminTruthy (d : LoginDoc) : Bool :=
  truthy d.isAdmin

/-- `!myData || !myData.isAdmin` negated: the uid-keyed record exists and
marks admin (page.tsx line 672). -/
def byUidAdmin (st : LoginStore) (uid : String) : Bool :=
  match lookupLogin st uid with
  | some d => adminTruthy d
  | none => false

/-- `query(collection(db, "login"), where("email", "==", q))` : all docs
whose `email` field equals the queried string, in document-id order. -/
def emailMatches (st : LoginStore) (q : String) : List (String × LoginDoc) :=
  List.filter (fun p => p.2.email = some q) st

/-- The document written by the email-path backfill (page.tsx line 685):
`{ ...byEmailDoc, email: byEmailDoc.email || auth.currentUser?.email || "" }`
where `byEmailDoc = { ...docs[0].data(), id: docs[0].id }`. -/
def backfillFor (mid : String) (mdoc : LoginDoc) (curEmail : Option String) : LoginDoc :=
  { mdoc with
    idField := some mid
    email := some (jsOrStr mdoc.email (jsOrStr curEmail "")) }

/-- Model of `loadIfAdmin` (page.tsx lines 659-730) for a resolved identity
`uid` with auth-provider email `curEmail` and display name `curName`.
`backfillOk` tells whether the best-effort backfill `setDoc` (line 685,
wrapped in its own try/catch) succeeds; its failure is only logged.
The roster fetch itself and its normalization are modelled separately
(`normalizeUser`); here `rosterFetched` records whether it is reached. -/
def loadIfAdmin (st : LoginStore) (uid : String) (curEmail curName : Option String)
    (backfillOk : Bool) : GateResult :=
  if byUidAdmin st uid then
    { error := none, writes := [], rosterFetched := true }
  else
    let qEmail := jsOrStr curEmail ""
    let operatorPath : GateResult :=
      if qEmail = "admin@gmail.com" then
        { error := none
          writes := [WriteOp.setLogin uid
            { email := some qEmail
              name := some (jsOrStr curName "Admin")
              isAdmin := some true }]
          rosterFetched := true }
      else
        { error := some "Access denied: admin only", writes := [], rosterFetched := false }
    match (emailMatches st qEmail).head? with
    | some (mid, mdoc) =>
      if adminTruthy mdoc then
        { error := none
          writes := if backfillOk then [WriteOp.setLogin uid (backfillFor mid mdoc curEmail)] else []
          rosterFetched := true }
      else operatorPath
    | none => operatorPath

/-- Roster normalization applied to each fetched user (page.tsx lines
714-722): the six toggle flags are coerced with `!!`; all other fields,
`isAdmin` included, are spread through unchanged. -/
def normalizeUser (u : LoginDoc) : LoginDoc :=
  { u with
    postapproval := some (truthy u.postapproval)
    postdelete := some (truthy u.postdelete)
    postedit := some (truthy u.postedit)
    postvisible := some (truthy u.postvisible)
    kbsquiz := some (truthy u.kbsquiz)
    bhajanquiz := some (truthy u.bhajanquiz) }

/-- `snap.docs.map(d => ({...d.data(), id: d.id}))` followed by the
normalization map (page.tsx lines 712-722). -/
def normalizeRoster (st : LoginStore) : LoginStore :=
  List.map (fun p => (p.1, normalizeUser p.2)) st

/-- A Firestore `updateDoc` write: collection, document id, and the exact
field map written (boolean fields only here). -/
structure UpdateOp where
  coll : String
  docId : String
  fields : List (String × Bool)
  deriving DecidableEq

/-- Pointwise update of a string-keyed map, modelling
`(p) => ({ ...p, [id]: v })` on the per-row state objects. -/
def setFun {α : Type} (f : String → α) (k : String) (v : α) : String → α :=
  fun q => if q = k then v else f q

/-- The component-local state the roster panel mutates: the user rows and
the per-row saving/error maps. -/
structure RowPanelState where
  users : LoginStore
  rowSaving : String → Bool
  rowError : String → Option String

/-- The `updateDoc` payload of `saveUser` (page.tsx lines 896-903): the six
toggle fields, each coerced with `!!`, on `login/{u.id}`. -/
def saveUserUpdate (id : String) (u : LoginDoc) : UpdateOp :=
  { coll := "login"
    docId := id
    fields :=
      [("postapproval", truthy u.postapproval),
       ("postedit", truthy u.postedit),
       ("postdelete", truthy u.postdelete),
       ("postvisible", truthy u.postvisible),
       ("kbsquiz", truthy u.kbsquiz),
       ("bhajanquiz", truthy u.bhajanquiz)] }

/-- Model of `saveUser` (page.tsx lines 891-911): set the row's saving flag,
clear its error, issue the single `updateDoc`, record the error message on
failure (`(err as Error).message || "Failed to save"`), and finally clear
the saving flag.  `writeOk` tells whether the external write succeeded and
`failMsg` is the provider's message in the failure case.  Returns the new
local state together with the one write that was issued. -/
def saveUserEffect (id : String) (u : LoginDoc) (writeOk : Bool) (failMsg : String)
    (s : RowPanelState) : RowPanelState × UpdateOp :=
  let s1 : RowPanelState :=
    { s with rowSaving := setFun s.rowSaving id true, rowError := setFun s.rowError id none }
  let s2 : RowPanelState :=
    if writeOk then { s1 with rowError := setFun s1.rowError id none }
    else { s1 with rowError := setFun s1.rowError id (some (jsOrS failMsg "Failed to save")) }
  let s3 : RowPanelState := { s2 with rowSaving := setFun s2.rowSaving id false }
  (s3, saveUserUpdate id u)

/-- The live-session document fields the lock logic reads. -/
structure LiveSession where
  userLocked : Bool
  adminLocked : Bool
  deriving DecidableEq

/-- The disabled condition of the Lock Answer button (page.tsx line 1212):
`lockSaving || !liveSession.userLocked || liveSession.adminLocked`. -/
def lockDisabled (lockSaving : Bool) (s : LiveSession) : Bool :=
  lockSaving || !s.userLocked || s.adminLocked

/-- The writes issued by the `lockAnswer` handler (page.tsx lines 856-872):
it returns early when `lockSaving` or no live session, otherwise it issues
exactly one `updateDoc` setting `adminLocked: true` on
`live_sessions/live_session_global`. -/
def lockAnswerWrites (lockSaving : Bool) (session : Option LiveSession) : List UpdateOp :=
  if lockSaving then []
  else
    match session with
    | none => []
    | some _ =>
      [{ coll := "live_sessions", docId := "live_session_global",
         fields := [("adminLocked", true)] }]

/-- The lock action as exposed by the UI: with no session the button is not
rendered (page.tsx line 1077), with a session the handler only runs when
the button is enabled (line 1212). -/
def lockAction (lockSaving : Bool) (session : Option LiveSession) : List UpdateOp :=
  match session with
  | none => []
  | some s =>
    if lockDisabled lockSaving s then []
    else lockAnswerWrites lockSaving (some s)

/-- A local wall-clock instant at second precision.  The page runs in one
fixed timezone, so a JS `Date` is represented by its local components;
`Timestamp.fromDate`/`toDate` preserve the instant and hence these
components. -/
structure LocalDT where
  year : Nat
  month : Nat
  day : Nat
  hour : Nat
  minute : Nat
  second : Nat
  deriving DecidableEq

/-- Gregorian leap-year rule, as used by the JS `Date` calendar. -/
def isLeap (y : Nat) : Bool :=
  (y % 4 = 0 && y % 100 != 0) || y % 400 = 0

/-- Days in a month of the JS `Date` calendar. -/
def daysInMonth (y m : Nat) : Nat :=
  if m = 2 then (if isLeap y then 29 else 28)
  else if m = 4 ∨ m = 6 ∨ m = 9 ∨ m = 11 then 30
  else 31

/-- Component ranges under which a date-time string denotes a real instant
(`new Date(s)` yields a non-NaN time value). -/
def ValidDT (dt : LocalDT) : Prop :=
  1 ≤ dt.month ∧ dt.month ≤ 12 ∧
  1 ≤ dt.day ∧ dt.day ≤ daysInMonth dt.year dt.month ∧
  dt.hour ≤ 23 ∧ dt.minute ≤ 59 ∧ dt.second ≤ 59

instance (dt : LocalDT) : Decidable (ValidDT dt) := by
  unfold ValidDT; infer_instance

/-- The decimal digit character of `n < 10`. -/
def digitChar (n : Nat) : Char :=
  Char.ofNat (48 + n)

/-- `n.toString().padStart(2, "0")` for `n < 100`, as a character list. -/
def twoDigits (n : Nat) : List Char :=
  [digitChar (n / 10), digitChar (n % 10)]

/-- `d.getFullYear()` rendered for a four-digit year. -/
def fourDigits (n : Nat) : List Char :=
  [digitChar (n / 1000), digitChar (n / 100 % 10), digitChar (n / 10 % 10), digitChar (n % 10)]

/-- The datetime-local formatting of `loadConfig` (page.tsx lines 926-929):
the template
`${getFullYear()}-${pad(getMonth()+1)}-${pad(getDate())}T${pad(getHours())}:${pad(getMinutes())}`,
truncating to minute precision. -/
def formatLocalChars (dt : LocalDT) : List Char :=
  fourDigits dt.year ++ [Char.ofNat 45] ++ twoDigits dt.month ++ [Char.ofNat 45] ++
  twoDigits dt.day ++ [Char.ofNat 84] ++ twoDigits dt.hour ++ [Char.ofNat 58] ++
  twoDigits dt.minute

/-- String form of `formatLocalChars`. -/
def formatLocal (dt : LocalDT) : String :=
  String.mk (formatLocalChars dt)

/-- Decimal digit value of a character, if it is one. -/
def digitVal (c : Char) : Option Nat :=
  if 48 ≤ c.toNat ∧ c.toNat ≤ 57 then some (c.toNat - 48) else none

/-- Two decimal digits read as a number. -/
def readTwo (a b : Char) : Option Nat :=
  match digitVal a, digitVal b with
  | some x, some y => some (10 * x + y)
  | _, _ => none

/-- Four decimal digits read as a number. -/
def readFour (a b c d : Char) : Option Nat :=
  match digitVal a, digitVal b, digitVal c, digitVal d with
  | some x, some y, some z, some w => some (1000 * x + 100 * y + 10 * z + w)
  | _, _, _, _ => none

/-- Range validation performed by the `Date` constructor: out-of-range
components give an invalid date (NaN). -/
def validated (dt : LocalDT) : Option LocalDT :=
  if ValidDT dt then some dt else none

/-- Model of `new Date(s)` / `Date.parse(s)` restricted to the ECMA-262
local date-time forms `YYYY-MM-DDTHH:MM` and `YYYY-MM-DDTHH:MM:SS` (the
grammar of the datetime-local input that feeds `saveConfig`); any other
string yields an invalid date, modelled as `none`. -/
def parseLocalChars : List Char → Option LocalDT
  | [y1, y2, y3, y4, s1, m1, m2, s2, d1, d2, s3, h1, h2, s4, n1, n2] =>
    if s1 = Char.ofNat 45 ∧ s2 = Char.ofNat 45 ∧ s3 = Char.ofNat 84 ∧ s4 = Char.ofNat 58 then
      match readFour y1 y2 y3 y4, readTwo m1 m2, readTwo d1 d2, readTwo h1 h2, readTwo n1 n2 with
      | some y, some mo, some d, some h, some mi =>
        validated { year := y, month := mo, day := d, hour := h, minute := mi, second := 0 }
      | _, _, _, _, _ => none
    else none
  | [y1, y2, y3, y4, s1, m1, m2, s2, d1, d2, s3, h1, h2, s4, n1, n2, s5, e1, e2] =>
    if s1 = Char.ofNat 45 ∧ s2 = Char.ofNat 45 ∧ s3 = Char.ofNat 84 ∧ s4 = Char.ofNat 58 ∧
        s5 = Char.ofNat 58 then
      match readFour y1 y2 y3 y4, readTwo m1 m2, readTwo d1 d2, readTwo h1 h2, readTwo n1 n2,
          readTwo e1 e2 with
      | some y, some mo, some d, some h, some mi, some se =>
        validated { year := y, month := mo, day := d, hour := h, minute := mi, second := se }
      | _, _, _, _, _, _ => none
    else none
  | _ => none

/-- String form of `parseLocalChars`. -/
def parseLocal (s : String) : Option LocalDT :=
  parseLocalChars s.data

/-- The stored value of `config/global`'s `timeleftforkbs` field: Firestore
null/absent, a `Timestamp`, a string, or some other value (stringified on
load). -/
inductive ConfigValue where
  | null
  | ts (dt : LocalDT)
  | str (s : String)
  | other (stringified : String)
  deriving DecidableEq

/-- The string `loadConfig` puts into the input field for a stored value
(page.tsx lines 921-946): null → `""`; `Timestamp` → datetime-local format;
string → reparse and format if it parses, else pass through; other →
`String(v)`. -/
def loadConfigString : ConfigValue → String
  | ConfigValue.null => ""
  | ConfigValue.ts dt => formatLocal dt
  | ConfigValue.str s =>
    match parseLocal s with
    | some dt => formatLocal dt
    | none => s
  | ConfigValue.other r => r

/-- The value `saveConfig` writes for the current input string (page.tsx
lines 962-973): empty → explicit null; parseable → `Timestamp.fromDate`;
unparseable → the raw string. -/
def saveConfigValue (input : String) : ConfigValue :=
  if input = "" then ConfigValue.null
  else
    match parseLocal input with
    | some dt => ConfigValue.ts dt
    | none => ConfigValue.str input

/-- The component-local state the config adapter mutates. -/
structure ConfigState where
  timeleftforkbs : String
  configError : Option String
  configSaving : Bool
  deriving DecidableEq

/-- Model of `loadConfig` (page.tsx lines 914-951) as a state step given the
outcome of the external read: an exception is caught and only logged
(`console.error`), leaving the state unchanged; a missing document sets
nothing; an existing document sets the input string via
`loadConfigString`. -/
def loadConfigStep (outcome : Except String (Option ConfigValue)) (s : ConfigState) :
    ConfigState :=
  match outcome with
  | Except.error _ => s
  | Except.ok none => s
  | Except.ok (some v) => { s with timeleftforkbs := loadConfigString v }

/-- Model of `saveConfig` (page.tsx lines 957-981) as a state step: set
saving, clear the config error, perform the single merge write of
`saveConfigValue input`, record `(err as Error).message || "Failed to save config"`
in the config error slot on failure, and finally clear saving.  Returns the
new state and the write that was attempted. -/
def saveConfigStep (input : String) (writeOk : Bool) (failMsg : String) (s : ConfigState) :
    ConfigState × ConfigValue :=
  let s1 : ConfigState := { s with configSaving := true, configError := none }
  let s2 : ConfigState :=
    if writeOk then s1
    else { s1 with configError := some (jsOrS failMsg "Failed to save config") }
  ({ s2 with configSaving := false }, saveConfigValue input)

/-- Days from 1970-01-01 to the civil date `y-m-d` (the calendar the JS
`Date` implements), using truncating integer division as the reference
algorithm does. -/
def daysFromCivil (y m d : Nat) : Int :=
  let yy : Int := (y : Int) - (if m ≤ 2 then 1 else 0)
  let era : Int := Int.tdiv (if 0 ≤ yy then yy else yy - 399) 400
  let yoe : Int := yy - era * 400
  let mp : Int := Int.tmod ((m : Int) + 9) 12
  let doy : Int := Int.tdiv (153 * mp + 2) 5 + (d : Int) - 1
  let doe : Int := yoe * 365 + Int.tdiv yoe 4 - Int.tdiv yoe 100 + doy
  era * 146097 + doe - 719468

/-- Epoch milliseconds of a local wall-clock instant, for a page running at
a fixed UTC offset of `tzEast` minutes east. -/
def localDTtoMs (tzEast : Int) (dt : LocalDT) : ℚ :=
  ((daysFromCivil dt.year dt.month dt.day * 86400 +
    (dt.hour : Int) * 3600 + (dt.minute : Int) * 60 + (dt.second : Int)) * 1000
    - tzEast * 60000 : Int)

/-- Model of `Date.parse` as used on chat timestamps: local date-time
strings parse to their epoch milliseconds, anything else is NaN (`none`). -/
def jsDateParseMs (tzEast : Int) (s : String) : Option ℚ :=
  (parseLocal s).map (localDTtoMs tzEast)

/-- The shapes a chat message's `createdAt` can take (page.tsx type
`TimestampValue`): null/undefined, a number, a string, a
seconds/nanoseconds pair (Firestore `Timestamp` included), or some other
object. -/
inductive TsInput where
  | nullish
  | num (n : ℚ)
  | str (s : String)
  | pair (seconds : ℚ) (nanoseconds : Option ℚ)
  | otherObj
  deriving DecidableEq

/-- Model of `getTimestampValue` (page.tsx lines 761-773), with `now` the
value of `Date.now()`: falsy values (null/undefined, `0`, `""`) fall back
to `now`; numbers pass through; strings go through `Date.parse` with NaN
falling back to `now`; a truthy `seconds` field gives
`seconds * 1000 + nanoseconds / 1e6` (a falsy `nanoseconds` contributing
0); anything else falls back to `now`. -/
def getTimestampValue (tzEast : Int) (now : ℚ) : TsInput → ℚ
  | TsInput.nullish => now
  | TsInput.num n => if n = 0 then now else n
  | TsInput.str s =>
    if s = "" then now
    else
      match jsDateParseMs tzEast s with
      | some t => t
      | none => now
  | TsInput.pair sec ns =>
    if sec = 0 then now
    else
      sec * 1000 +
        (match ns with
         | none => 0
         | some x => if x = 0 then 0 else x / 1000000)
  | TsInput.otherObj => now

/-- Truncation toward zero of a time value, as `ToIntegerOrInfinity` does
when a number is given to the `Date` constructor. -/
def ratTrunc (q : ℚ) : Int :=
  Int.tdiv q.num (q.den : Int)

/-- Local hour and minute of an epoch-milliseconds time value, at a fixed
UTC offset of `tzEast` minutes east, via the floor-based
`HourFromTime`/`MinFromTime` arithmetic of ECMA-262. -/
def msToLocalHM (tzEast : Int) (t : ℚ) : Nat × Nat :=
  let localMs : Int := ratTrunc t + tzEast * 60000
  let mins : Int := Int.fdiv localMs 60000
  (Int.toNat (Int.fdiv mins 60 % 24), Int.toNat (mins % 60))

/-- Canonical rendering of an hour:minute pair; models the output of
`toLocaleTimeString([], \x7b hour: "2-digit", minute: "2-digit" \x7d)` up to
locale decoration. -/
def formatHM (p : Nat × Nat) : String :=
  String.mk (twoDigits p.1 ++ [Char.ofNat 58] ++ twoDigits p.2)

/-- Model of `getReadableChatTime` (page.tsx lines 775-778):
`new Date(getTimestampValue(value))` rendered as local hour:minute. -/
def getReadableChatTime (tzEast : Int) (now : ℚ) (v : TsInput) : String :=
  formatHM (msToLocalHM tzEast (getTimestampValue tzEast now v))

/-- A well-formed hour:minute rendering: some in-range hour and minute in
the canonical two-digit format. -/
def WellFormedHM (s : String) : Prop :=
  ∃ h m, h < 24 ∧ m < 60 ∧ s = formatHM (h, m)

/-- A non-admin login record for `player@x.com`, keyed `u2`. -/
def playerDoc : LoginDoc :=
  { email := some "player@x.com", isAdmin := some false }

/-- A non-admin login record matching email `a@x.com`. -/
def nonAdminA : LoginDoc :=
  { email := some "a@x.com", isAdmin := some false }

/-- An admin-marked login record matching email `a@x.com`. -/
def adminA : LoginDoc :=
  { email := some "a@x.com", isAdmin := some true }

/-- A store in which the email `a@x.com` matches two records in document-id
order: first a non-admin one, then an admin one. -/
def twoMatchStore : LoginStore :=
  [("d1", nonAdminA), ("d2", adminA)]

/-- A store with a single admin record matching `a@x.com`. -/
def oneMatchStore : LoginStore :=
  [("e1", adminA)]

/-- A login record with every field absent. -/
def blankDoc : LoginDoc := {}

/-- An empty roster-panel local state. -/
def rps0 : RowPanelState :=
  { users := [], rowSaving := fun _ => false, rowError := fun _ => none }

/-- An initial config-adapter local state. -/
def cfg0 : ConfigState :=
  { timeleftforkbs := "", configError := none, configSaving := false }

/-- The local instant 2025-01-01 10:30. -/
def dt2025 : LocalDT :=
  { year := 2025, month := 1, day := 1, hour := 10, minute := 30, second := 0 }

theorem digitVal_digitChar {k : Nat} (h : k < 10) : digitVal (digitChar k) = some k := by
  interval_cases k <;> decide

theorem readTwo_digits {n : Nat} (h : n < 100) :
    readTwo (digitChar (n / 10)) (digitChar (n % 10)) = some n := by
  have h1 : n / 10 < 10 := by omega
  have h2 : n % 10 < 10 := by omega
  rw [readTwo, digitVal_digitChar h1, digitVal_digitChar h2]
  show some (10 * (n / 10) + n % 10) = some n
  have : 10 * (n / 10) + n % 10 = n := by omega
  rw [this]

theorem readFour_digits {n : Nat} (h : n < 10000) :
    readFour (digitChar (n / 1000)) (digitChar (n / 100 % 10)) (digitChar (n / 10 % 10))
      (digitChar (n % 10)) = some n := by
  have h1 : n / 1000 < 10 := by omega
  have h2 : n / 100 % 10 < 10 := by omega
  have h3 : n / 10 % 10 < 10 := by omega
  have h4 : n % 10 < 10 := by omega
  rw [readFour, digitVal_digitChar h1, digitVal_digitChar h2, digitVal_digitChar h3,
    digitVal_digitChar h4]
  show some (1000 * (n / 1000) + 100 * (n / 100 % 10) + 10 * (n / 10 % 10) + n % 10) = some n
  have : 1000 * (n / 1000) + 100 * (n / 100 % 10) + 10 * (n / 10 % 10) + n % 10 = n := by omega
  rw [this]

theorem parse_format_roundtrip (dt : LocalDT) (hv : ValidDT dt) (h0 : dt.second = 0)
    (hy : dt.year < 10000) : parseLocal (formatLocal dt) = some dt := by
  have hmo : dt.month < 100 := by
    rcases hv with ⟨-, h, -⟩; omega
  have hd : dt.day < 100 := by
    have := hv.2.2.2.1
    have hle : daysInMonth dt.year dt.month ≤ 31 := by
      unfold daysInMonth
      split <;> [split <;> omega; (split <;> omega)]
    omega
  have hh : dt.hour < 100 := by have := hv.2.2.2.2.1; omega
  have hmi : dt.minute < 100 := by have := hv.2.2.2.2.2.1; omega
  show parseLocalChars (formatLocal dt).data = some dt
  have hdata : (formatLocal dt).data = formatLocalChars dt := rfl
  rw [hdata]
  show parseLocalChars
      [digitChar (dt.year / 1000), digitChar (dt.year / 100 % 10), digitChar (dt.year / 10 % 10),
       digitChar (dt.year % 10), Char.ofNat 45, digitChar (dt.month / 10), digitChar (dt.month % 10),
       Char.ofNat 45, digitChar (dt.day / 10), digitChar (dt.day % 10), Char.ofNat 84,
       digitChar (dt.hour / 10), digitChar (dt.hour % 10), Char.ofNat 58,
       digitChar (dt.minute / 10), digitChar (dt.minute % 10)] = some dt
  rw [parseLocalChars]
  rw [if_pos ⟨rfl, rfl, rfl, rfl⟩]
  rw [readFour_digits hy, readTwo_digits hmo, readTwo_digits hd, readTwo_digits hh,
    readTwo_digits hmi]
  show validated ⟨dt.year, dt.month, dt.day, dt.hour, dt.minute, 0⟩ = some dt
  rw [show (0 : Nat) = dt.second from h0.symm]
  rw [validated, if_pos hv]

/-- Claim C4: `saveUser` issues exactly one `updateDoc`, on collection
`login` at document `u.id`, whose field map is exactly the six toggle
fields each coerced to a strict boolean; the local users list is unchanged
and every other row's saving/error state is untouched. -/
theorem c4_saveUser_frame (id : String) (u : LoginDoc) (writeOk : Bool) (failMsg : String)
    (s : RowPanelState) :
    (saveUserEffect id u writeOk failMsg s).2 =
      { coll := "login", docId := id,
        fields :=
          [("postapproval", truthy u.postapproval),
           ("postedit", truthy u.postedit),
           ("postdelete", truthy u.postdelete),
           ("postvisible", truthy u.postvisible),
           ("kbsquiz", truthy u.kbsquiz),
           ("bhajanquiz", truthy u.bhajanquiz)] } ∧
    (saveUserEffect id u writeOk failMsg s).1.users = s.users ∧
    (∀ q, q ≠ id →
      (saveUserEffect id u writeOk failMsg s).1.rowSaving q = s.rowSaving q ∧
      (saveUserEffect id u writeOk failMsg s).1.rowError q = s.rowError q) := by
  refine ⟨rfl, ?_, ?_⟩
  · cases writeOk <;> rfl
  · intro q hq
    cases writeOk <;> simp [saveUserEffect, setFun, hq]

/-- Claim C4 witness: saving row `r1` leaves row `r2`'s local state alone
and produces the six-field write on `login/r1`. -/
theorem c4_saveUser_frame_witness :
    (saveUserEffect "r1" blankDoc true "" rps0).2 =
      { coll := "login", docId := "r1",
        fields :=
          [("postapproval", false), ("postedit", false), ("postdelete", false),
           ("postvisible", false), ("kbsquiz", false), ("bhajanquiz", false)] } ∧
    (saveUserEffect "r1" blankDoc true "" rps0).1.rowSaving "r2" = rps0.rowSaving "r2" ∧
    (saveUserEffect "r1" blankDoc true "" rps0).1.rowError "r2" = rps0.rowError "r2" := by
  have h := c4_saveUser_frame "r1" blankDoc true "" rps0
  have h2 := h.2.2 "r2" (by decide)
  exact ⟨h.1, h2.1, h2.2⟩

/-- Claim C5: the lock action is a no-op whenever the live session shows
`userLocked = false` or `adminLocked = true` (and when no session exists);
invoking it with `userLocked = true, adminLocked = false` performs exactly
one field update, `adminLocked: true`, on
`live_sessions/live_session_global`, and nothing else. -/
theorem c5_lock_action (sv : Bool) (s : LiveSession) :
    (s.userLocked = false ∨ s.adminLocked = true → lockAction sv (some s) = []) ∧
    lockAction sv none = [] ∧
    lockAction false (some { userLocked := true, adminLocked := false }) =
      [{ coll := "live_sessions", docId := "live_session_global",
         fields := [("adminLocked", true)] }] := by
  refine ⟨?_, rfl, rfl⟩
  intro h
  rcases h with h | h <;> simp [lockAction, lockDisabled, h]

/-- Claim C5 witness: with `userLocked = false` the action is a no-op, and
in the enabled state it issues the single `adminLocked` update. -/
theorem c5_lock_action_witness :
    lockAction false (some { userLocked := false, adminLocked := false }) = [] ∧
    lockAction false (some { userLocked := true, adminLocked := false }) =
      [{ coll := "live_sessions", docId := "live_session_global",
         fields := [("adminLocked", true)] }] :=
  ⟨(c5_lock_action false { userLocked := false, adminLocked := false }).1 (Or.inl rfl),
   (c5_lock_action false { userLocked := false, adminLocked := false }).2.2⟩

/-- Claim C7 counterexample: the roster normalization does not touch
`isAdmin` — a fetched record with `isAdmin` absent keeps it absent instead
of becoming strict `false`, so the claim that every boolean flag
(`isAdmin` included) is normalized fails. -/
theorem c7_isAdmin_not_normalized :
    normalizeRoster [("u3", blankDoc)] = [("u3", normalizeUser blankDoc)] ∧
    blankDoc.isAdmin = none ∧
    (normalizeUser blankDoc).isAdmin ≠ some false := by
  refine ⟨rfl, rfl, ?_⟩
  decide

/-- Claim C7 (amended): after the roster fetch, each of the six toggle
flags of every fetched record is normalized to a strict boolean with
absent becoming false, while `isAdmin` (and the non-flag fields) pass
through unchanged. -/
theorem c7_normalize_toggles (st : LoginStore) (u : LoginDoc) :
    normalizeRoster st = List.map (fun p => (p.1, normalizeUser p.2)) st ∧
    (normalizeUser u).postapproval = some (truthy u.postapproval) ∧
    (normalizeUser u).postdelete = some (truthy u.postdelete) ∧
    (normalizeUser u).postedit = some (truthy u.postedit) ∧
    (normalizeUser u).postvisible = some (truthy u.postvisible) ∧
    (normalizeUser u).kbsquiz = some (truthy u.kbsquiz) ∧
    (normalizeUser u).bhajanquiz = some (truthy u.bhajanquiz) ∧
    (normalizeUser u).isAdmin = u.isAdmin ∧
    (normalizeUser u).name = u.name ∧
    (normalizeUser u).email = u.email :=
  ⟨rfl, rfl, rfl, rfl, rfl, rfl, rfl, rfl, rfl, rfl⟩

/-- Claim C7 witness: the amended normalization statement at a concrete
blank record. -/
theorem c7_normalize_toggles_witness :
    (normalizeUser blankDoc).postapproval = some (truthy blankDoc.postapproval) ∧
    (normalizeUser blankDoc).isAdmin = blankDoc.isAdmin :=
  ⟨(c7_normalize_toggles [] blankDoc).2.1, (c7_normalize_toggles [] blankDoc).2.2.2.2.2.2.2.1⟩

/-- Claim C8 counterexample: a failure of the config load operation is
caught but leaves the state — the config error slot included — unchanged,
so load failures are swallowed rather than surfaced. -/
theorem c8_load_failure_swallowed :
    loadConfigStep (Except.error "network error") cfg0 = cfg0 ∧
    (loadConfigStep (Except.error "network error") cfg0).configError = none :=
  ⟨rfl, rfl⟩

/-- Claim C8 (amended): asynchronous config failures are caught and never
escape (the step functions are total); a `saveConfig` failure is surfaced
in the config error slot with the provider's message, but a `loadConfig`
failure only logs and leaves the component state, error slot included,
unchanged. -/
theorem c8_error_slots (e : String) (s : ConfigState) (input failMsg : String) :
    loadConfigStep (Except.error e) s = s ∧
    (saveConfigStep input false failMsg s).1.configError =
      some (jsOrS failMsg "Failed to save config") ∧
    (saveConfigStep input true failMsg s).1.configError = none := by
  refine ⟨rfl, ?_, ?_⟩ <;> simp [saveConfigStep]

/-- Claim C8 witness: the amended error-slot statement at concrete inputs —
a failing load leaves `cfg0` unchanged and a failing save surfaces the
provider message. -/
theorem c8_error_slots_witness :
    loadConfigStep (Except.error "boom") cfg0 = cfg0 ∧
    (saveConfigStep "x" false "boom" cfg0).1.configError = some (jsOrS "boom" "Failed to save config") :=
  ⟨(c8_error_slots "boom" cfg0 "x" "boom").1, (c8_error_slots "boom" cfg0 "x" "boom").2.1⟩

/-- Claim C1: for a resolved identity whose uid-keyed record is absent or
not marked admin, whose email lookup finds no admin-marked record, and
whose email is not the hardcoded operator address, `loadIfAdmin` sets the
error "Access denied: admin only", performs no write, and returns without
reaching the roster fetch. -/
theorem c1_access_denied (st : LoginStore) (uid : String) (curEmail curName : Option String)
    (backfillOk : Bool)
    (hUid : byUidAdmin st uid = false)
    (hEmail : (emailMatches st (jsOrStr curEmail "")).all (fun p => !adminTruthy p.2) = true)
    (hOp : jsOrStr curEmail "" ≠ "admin@gmail.com") :
    loadIfAdmin st uid curEmail curName backfillOk =
      { error := some "Access denied: admin only", writes := [], rosterFetched := false } := by
  unfold loadIfAdmin
  rw [hUid]
  simp only [Bool.false_eq_true, if_false]
  cases hm : (emailMatches st (jsOrStr curEmail "")).head? with
  | none =>
    simp only [hm, if_neg hOp]
  | some p =>
    obtain ⟨mid, mdoc⟩ := p
    have hmem : (mid, mdoc) ∈ emailMatches st (jsOrStr curEmail "") := by
      cases hl : emailMatches st (jsOrStr curEmail "") with
      | nil => rw [hl] at hm; exact absurd hm (by simp)
      | cons a t =>
        rw [hl] at hm
        simp only [List.head?_cons, Option.some.injEq] at hm
        subst hm
        exact List.mem_cons_self _ _
    have hna : adminTruthy mdoc = false := by
      have := List.all_eq_true.mp hEmail _ hmem
      simpa using this
    simp only [hm, hna, Bool.false_eq_true, if_false, if_neg hOp]

/-- Claim C1 witness: identity `u2` with email `player@x.com` and a
non-admin uid record is denied and the roster is never fetched. -/
theorem c1_access_denied_witness :
    loadIfAdmin [("u2", playerDoc)] "u2" (some "player@x.com") none true =
      { error := some "Access denied: admin only", writes := [], rosterFetched := false } :=
  c1_access_denied [("u2", playerDoc)] "u2" (some "player@x.com") none true
    (by decide) (by decide) (by decide)

/-- Claim C2: an identity whose email is the hardcoded operator address
`admin@gmail.com`, with no admin-marked uid record and no record matching
that email, gets a fresh `login/{uid}` document with `isAdmin: true` (plus
the email and display name) and the roster fetch proceeds. -/
theorem c2_operator_bootstrap (st : LoginStore) (uid : String) (curName : Option String)
    (backfillOk : Bool)
    (hUid : byUidAdmin st uid = false)
    (hEmail : emailMatches st "admin@gmail.com" = []) :
    loadIfAdmin st uid (some "admin@gmail.com") curName backfillOk =
      { error := none
        writes := [WriteOp.setLogin uid
          { email := some "admin@gmail.com"
            name := some (jsOrStr curName "Admin")
            isAdmin := some true }]
        rosterFetched := true } := by
  unfold loadIfAdmin
  rw [hUid]
  have hq : jsOrStr (some "admin@gmail.com") "" = "admin@gmail.com" := rfl
  simp [hq, hEmail]

/-- Claim C2 witness: on an empty store, identity `u1` with the operator
email gets `login/u1` created with `isAdmin: true` and the roster fetch
runs. -/
theorem c2_operator_bootstrap_witness :
    loadIfAdmin [] "u1" (some "admin@gmail.com") none true =
      { error := none
        writes := [WriteOp.setLogin "u1"
          { email := some "admin@gmail.com", name := some "Admin", isAdmin := some true }]
        rosterFetched := true } :=
  c2_operator_bootstrap [] "u1" none true (by decide) (by decide)

/-- Claim C3 counterexample: in `twoMatchStore` exactly one record matching
`a@x.com` marks admin, yet the check denies — the code only examines the
first match in query order, so "authorizes iff exactly one match marks
admin" is false. -/
theorem c3_exactly_one_refuted :
    ((emailMatches twoMatchStore "a@x.com").filter (fun p => adminTruthy p.2)).length = 1 ∧
    loadIfAdmin twoMatchStore "u9" (some "a@x.com") none true =
      { error := some "Access denied: admin only", writes := [], rosterFetched := false } := by
  decide

/-- Claim C3 (amended): when the uid-keyed record is absent or not marked
admin and the email query has a first match, the check authorizes if and
only if that first match marks admin (not "exactly one match"); on
authorization it best-effort backfills the uid-keyed record — the write
happens only when the external call succeeds, and its failure is not
surfaced (no error, roster still fetched). -/
theorem c3_first_match_rule (st : LoginStore) (uid : String) (curEmail curName : Option String)
    (backfillOk : Bool) (mid : String) (mdoc : LoginDoc)
    (hUid : byUidAdmin st uid = false)
    (hHead : (emailMatches st (jsOrStr curEmail "")).head? = some (mid, mdoc)) :
    (adminTruthy mdoc = true →
      loadIfAdmin st uid curEmail curName backfillOk =
        { error := none
          writes :=
            if backfillOk then [WriteOp.setLogin uid (backfillFor mid mdoc curEmail)] else []
          rosterFetched := true }) ∧
    (adminTruthy mdoc = false → jsOrStr curEmail "" ≠ "admin@gmail.com" →
      loadIfAdmin st uid curEmail curName backfillOk =
        { error := some "Access denied: admin only", writes := [], rosterFetched := false }) := by
  constructor
  · intro hAdm
    unfold loadIfAdmin
    rw [hUid]
    simp only [Bool.false_eq_true, if_false, hHead, hAdm, if_true]
  · intro hAdm hOp
    unfold loadIfAdmin
    rw [hUid]
    simp only [Bool.false_eq_true, if_false, hHead, hAdm, if_false, if_neg hOp]

/-- Claim C3 witness: with one admin match for `a@x.com` and a failing
backfill write, the identity is still authorized with no error and no
surviving write. -/
theorem c3_first_match_rule_witness :
    loadIfAdmin oneMatchStore "u9" (some "a@x.com") none false =
      { error := none, writes := [], rosterFetched := true } := by
  have h := (c3_first_match_rule oneMatchStore "u9" (some "a@x.com") none false "e1" adminA
    (by decide) (by decide)).1 (by decide)
  simpa using h

/-- Claim C6: saving the empty config string writes an explicit null, which
reloads to the empty string, and for every valid minute-precision
local-time value the save-then-load composition is the identity on its
datetime-local string. -/
theorem c6_config_roundtrip (dt : LocalDT) (hv : ValidDT dt) (h0 : dt.second = 0)
    (hy1 : 1000 ≤ dt.year) (hy2 : dt.year ≤ 9999) :
    saveConfigValue "" = ConfigValue.null ∧
    loadConfigString ConfigValue.null = "" ∧
    loadConfigString (saveConfigValue (formatLocal dt)) = formatLocal dt := by
  refine ⟨rfl, rfl, ?_⟩
  have hlen : (formatLocal dt).length = 16 := rfl
  have hne : formatLocal dt ≠ "" := by
    intro h
    rw [h] at hlen
    exact absurd hlen (by decide)
  have hp : parseLocal (formatLocal dt) = some dt :=
    parse_format_roundtrip dt hv h0 (by omega)
  rw [saveConfigValue, if_neg hne, hp]
  rfl

/-- Claim C6 witness: the local-time string `2025-01-01T10:30` round-trips
through save and load, and the empty string round-trips through the stored
null. -/
theorem c6_config_roundtrip_witness :
    loadConfigString (saveConfigValue "2025-01-01T10:30") = "2025-01-01T10:30" ∧
    loadConfigString (saveConfigValue "") = "" := by
  have h := c6_config_roundtrip dt2025 (by decide) rfl (by decide) (by decide)
  have hf : formatLocal dt2025 = "2025-01-01T10:30" := by decide
  refine ⟨?_, ?_⟩
  · have h3 := h.2.2
    rw [hf] at h3
    exact h3
  · rw [h.1]
    exact h.2.1

/-- Every rendered chat time has its hour below 24 and minute below 60. -/
theorem msToLocalHM_lt (tz : Int) (t : ℚ) :
    (msToLocalHM tz t).1 < 24 ∧ (msToLocalHM tz t).2 < 60 := by
  simp only [msToLocalHM]
  constructor <;> omega

/-- Claim C9: the timestamp renderer accepts the three input shapes — a
non-zero epoch number passes through, a parseable date string yields its
parsed instant, and a seconds/nanoseconds pair yields
`seconds * 1000 + nanoseconds / 1e6` — and the pair
`seconds = 1700000000, nanoseconds = 0` renders the local hour:minute of
epoch instant 1700000000000 ms. -/
theorem c9_three_shapes (tz : Int) (now n t sec ns : ℚ) (s : String)
    (hn : n ≠ 0) (hs : s ≠ "") (hp : jsDateParseMs tz s = some t) (hsec : sec ≠ 0) :
    getTimestampValue tz now (TsInput.num n) = n ∧
    getTimestampValue tz now (TsInput.str s) = t ∧
    getTimestampValue tz now (TsInput.pair sec (some ns)) = sec * 1000 + ns / 1000000 ∧
    getReadableChatTime tz now (TsInput.pair 1700000000 (some 0)) =
      formatHM (msToLocalHM tz 1700000000000) := by
  refine ⟨by simp [getTimestampValue, hn], by simp [getTimestampValue, hs, hp], ?_, ?_⟩
  · by_cases hz : ns = 0
    · simp [getTimestampValue, hsec, hz]
    · simp [getTimestampValue, hsec, hz]
  · have hv : getTimestampValue tz now (TsInput.pair 1700000000 (some 0)) =
        (1700000000000 : ℚ) := by
      norm_num [getTimestampValue]
    rw [getReadableChatTime, hv]

/-- Claim C9 witness: the three shapes evaluated at concrete inputs,
including the scenario pair `seconds = 1700000000, nanoseconds = 0`. -/
theorem c9_three_shapes_witness :
    getTimestampValue 0 0 (TsInput.num 5) = 5 ∧
    getTimestampValue 0 0 (TsInput.str "2025-01-01T10:30") = 1735727400000 ∧
    getTimestampValue 0 0 (TsInput.pair 3 (some 0)) = 3 * 1000 + 0 / 1000000 ∧
    getReadableChatTime 0 0 (TsInput.pair 1700000000 (some 0)) =
      formatHM (msToLocalHM 0 1700000000000) :=
  c9_three_shapes 0 0 5 1735727400000 3 0 "2025-01-01T10:30"
    (by norm_num) (by decide) (by decide) (by norm_num)

/-- Claim C10: every falsy or unresolvable `createdAt` — null/undefined,
the number 0, an unparseable string, a pair with `seconds = 0`, or any
other object — falls back to the current `Date.now()` value, and the
rendered chat time is always a well-formed hour:minute string. -/
theorem c10_fallback_now (tz : Int) (now : ℚ) (s : String) (ns : Option ℚ) (v : TsInput)
    (hs : parseLocal s = none) :
    getTimestampValue tz now TsInput.nullish = now ∧
    getTimestampValue tz now (TsInput.num 0) = now ∧
    getTimestampValue tz now (TsInput.str s) = now ∧
    getTimestampValue tz now (TsInput.pair 0 ns) = now ∧
    getTimestampValue tz now TsInput.otherObj = now ∧
    WellFormedHM (getReadableChatTime tz now v) := by
  refine ⟨rfl, by simp [getTimestampValue], ?_, by simp [getTimestampValue], rfl, ?_⟩
  · by_cases he : s = ""
    · simp [getTimestampValue, he]
    · simp [getTimestampValue, he, jsDateParseMs, hs]
  · obtain ⟨h1, h2⟩ := msToLocalHM_lt tz (getTimestampValue tz now v)
    exact ⟨_, _, h1, h2, rfl⟩

/-- Claim C10 witness: an absent timestamp and the unparseable string
`hello` both fall back to `Date.now()`, and the rendering is a well-formed
hour:minute string. -/
theorem c10_fallback_now_witness :
    getTimestampValue 0 42 TsInput.nullish = 42 ∧
    getTimestampValue 0 42 (TsInput.str "hello") = 42 ∧
    WellFormedHM (getReadableChatTime 0 42 TsInput.nullish) := by
  have h := c10_fallback_now 0 42 "hello" none TsInput.nullish (by decide)
  exact ⟨h.1, h.2.2.1, h.2.2.2.2.2⟩

end AdminPanel
